import Mathlib

/-!
Verification development for the Janus trigger-based content-regeneration
pipeline (`backend/src/metrics/views.py`, `backend/src/metrics/models.py`,
`backend/src/agents/models.py`).

The Python code is shallowly embedded: Django model rows become Lean
structures, the database becomes explicit state (`DB`), fallible Python
calls become `Except PyErr`, and the external LLM / media services are
modelled as oracles supplying each call's outcome.
-/

/-- The exception classes raised by the embedded code.  Every constructor
models a Python exception deriving from `Exception` (so all of them are
caught by a bare `except Exception` handler).
`operational locked` is `django.db.utils.OperationalError`, with `locked`
recording whether `"database is locked" in str(e).lower()` holds. -/
inductive PyErr where
  | operational (locked : Bool)
  | integrity
  | attribute
  | doesNotExist
  | generic (msg : String)
deriving DecidableEq, Repr

/-- `metrics/views.py` line 2 imports the module `time`, but line 13
(`from time import time`) rebinds the module-level name `time` to the
function `time.time`.  Consequently `time.sleep(delay)` at line 142 is an
attribute access on a built-in function and raises `AttributeError`. -/
def timeSleep (_delay : Nat) : Except PyErr Unit := .error .attribute

/-- For the same reason (line 13 shadowing), `int(time.time())` inside the
asset file names at lines 259 and 287 raises `AttributeError`. -/
def timeTime : Except PyErr Nat := .error .attribute

/-- Loop body of `retry_on_db_lock` (`metrics/views.py:128-146`).
`func k` is the outcome the store gives to the k-th invocation of the
operation.  `fuel` counts the remaining iterations of
`for attempt in range(max_retries)`; the returned `Nat` is the number of
times `func` was actually invoked (instrumentation only).
Delays are in milliseconds (Python uses seconds: 0.1, doubled). -/
def retryAux (func : Nat → Except PyErr α) (attempt delay : Nat)
    (lastExc : Option PyErr) (calls : Nat) : Nat → Except PyErr α × Nat
  | 0 =>
    match lastExc with
    | some e => (.error e, calls)
    | none => (.error (.generic "TypeError: exceptions must derive from BaseException"), calls)
  | fuel + 1 =>
    match func attempt with
    | .ok a => (.ok a, calls + 1)
    | .error (.operational true) =>
      if 0 < fuel then
        match timeSleep delay with
        | .ok _ => retryAux func (attempt + 1) (delay * 2) (some (.operational true)) (calls + 1) fuel
        | .error e2 => (.error e2, calls + 1)
      else
        retryAux func (attempt + 1) delay (some (.operational true)) (calls + 1) fuel
    | .error e => (.error e, calls + 1)

/-- `retry_on_db_lock(func, max_retries=5, initial_delay=0.1)` together with
the number of invocations of `func` that were made. -/
def retry_on_db_lock_count (func : Nat → Except PyErr α) (max_retries initial_delay : Nat) :
    Except PyErr α × Nat :=
  retryAux func 0 initial_delay none 0 max_retries

/-- `retry_on_db_lock` as used by the regeneration task. -/
def retry_on_db_lock (func : Nat → Except PyErr α) (max_retries initial_delay : Nat) :
    Except PyErr α :=
  (retry_on_db_lock_count func max_retries initial_delay).1

/-- One of the four JSON counter fields of `PostMetrics`
(`metrics/models.py:6-9`, `JSONField(default=dict)`).  A counter is either a
scalar (e.g. the `0` written by `Post.save`) or a dict from variant label
to integer. -/
inductive CounterVal where
  | num (n : Int)
  | obj (entries : List (String × Int))
deriving DecidableEq, Repr

/-- Python `self.field.get(variant, 0) if isinstance(self.field, dict) else 0`
(`metrics/models.py:22-25`). -/
def CounterVal.pyGet : CounterVal → String → Int
  | .obj es, k => ((es.find? (fun e => e.1 == k)).map (·.2)).getD 0
  | .num _, _ => 0

/-- Whether a counter is a dict containing the given key. -/
def CounterVal.hasKey : CounterVal → String → Bool
  | .obj es, k => es.any (fun e => e.1 == k)
  | .num _, _ => false

/-- `PostMetrics` (`metrics/models.py:4-11`).  `commentList` maps a variant
label to its list of comment texts and `tweet_id` maps a variant label to an
external platform post identifier (both `JSONField(default=dict)`). -/
structure PostMetrics where
  likes : CounterVal
  retweets : CounterVal
  impressions : CounterVal
  comments : CounterVal
  commentList : List (String × List String)
  tweet_id : List (String × String)
deriving DecidableEq, Repr

/-- The dict returned by `PostMetrics.get_variant_metrics`
(`metrics/models.py:19-26`). -/
structure VariantMetrics where
  likes : Int
  retweets : Int
  impressions : Int
  comments : Int
deriving DecidableEq, Repr

/-- `get_variant_metrics(self, variant)` (`metrics/models.py:19-26`). -/
def PostMetrics.get_variant_metrics (m : PostMetrics) (variant : String) : VariantMetrics :=
  { likes := m.likes.pyGet variant
    retweets := m.retweets.pyGet variant
    impressions := m.impressions.pyGet variant
    comments := m.comments.pyGet variant }

/-- `metrics_a.get(post.trigger_condition, 0)` (`metrics/views.py:358-359`):
the dict built by `get_variant_metrics` has exactly the four metric keys, and
`.get(..., 0)` yields 0 for any other name. -/
def VariantMetrics.getCond (vm : VariantMetrics) (cond : String) : Int :=
  if cond == "likes" then vm.likes
  else if cond == "retweets" then vm.retweets
  else if cond == "impressions" then vm.impressions
  else if cond == "comments" then vm.comments
  else 0

/-- The `PostMetrics` row created by `Post.save` for a fresh post
(`agents/models.py:109-117`): `likes=0, impressions=0, retweets=0` are
scalars, and `comments`, `commentList`, `tweet_id` take the field default
`dict` (empty). -/
def freshPostMetrics : PostMetrics :=
  { likes := .num 0
    retweets := .num 0
    impressions := .num 0
    comments := .obj []
    commentList := []
    tweet_id := [] }

/-- Predicate written from the spec's invariant wording: all four counters
and the identifier map contain keys for both `"A"` and `"B"`. -/
def metricsHasABKeys (m : PostMetrics) : Bool :=
  m.likes.hasKey "A" && m.likes.hasKey "B" &&
  m.retweets.hasKey "A" && m.retweets.hasKey "B" &&
  m.impressions.hasKey "A" && m.impressions.hasKey "B" &&
  m.comments.hasKey "A" && m.comments.hasKey "B" &&
  (m.tweet_id.any (fun e => e.1 == "A")) && (m.tweet_id.any (fun e => e.1 == "B"))

/-- `Campaign` (`agents/models.py:8-51`), restricted to the fields the
trigger pipeline reads: `campaign_id` and
`campaign.metadata.get('product_info', '')` (`metrics/views.py:225`). -/
structure Campaign where
  campaign_id : String
  product_info : String
deriving DecidableEq, Repr

/-- `Post` (`agents/models.py:54-117`) restricted to the fields the trigger
pipeline reads.  The fields `posted_time`, `trigger_condition`,
`trigger_value`, `trigger_comparison` and `trigger_prompt` are used
throughout `metrics/views.py` and `metrics/serializer.py` but their model
declarations are not among the included source files.
Modelled from the spec: "four optional scalar fields, all-or-nothing" for
the trigger configuration and an "optional `posted_at` timestamp"
(spec §3, §6), each an independently nullable column. -/
structure Post where
  pk : Nat
  post_id : String
  title : String
  description : String
  status : String
  posted_time : Option Nat
  metrics : Option PostMetrics
  trigger_condition : Option String
  trigger_value : Option Int
  trigger_comparison : Option String
  trigger_prompt : Option String
  campaign : Campaign
  created_at : Nat
deriving DecidableEq, Repr

/-- `ContentVariant` (`agents/models.py:120-148`), restricted to the fields
the trigger pipeline touches.  `regenerated` records the
`metadata={'image_caption': ..., 'regenerated': True}` marker written by the
regeneration task. -/
structure ContentVariant where
  post_pk : Nat
  variant_id : String
  content : String
  asset : Option String
  regenerated : Bool
  created_at : Nat
deriving DecidableEq, Repr

/-- The persistent store: the `Post` table (with its 1:1 `PostMetrics` and
embedded campaign) and the `ContentVariant` table. -/
structure DB where
  posts : List Post
  variants : List ContentVariant
deriving DecidableEq, Repr

/-- One entry of `triggeredPosts` (`metrics/views.py:386-397`). -/
structure TriggerEvent where
  post_pk : Nat
  post_title : String
  trigger_condition : String
  trigger_value : Int
  trigger_comparison : String
  current_value_a : Int
  current_value_b : Int
  triggered_variants : List String
  elapsed_time_seconds : Int
  trigger_prompt : Option String
deriving DecidableEq, Repr

/-- The comparison dispatch of `checkTrigger` (`metrics/views.py:365-373`):
`'<'`, `'='` and `'>'` compare strictly; any other comparison string leaves
both flags `False`. -/
def satisfiesCmp (cmp : String) (x v : Int) : Bool :=
  if cmp == "<" then decide (x < v)
  else if cmp == "=" then x == v
  else if cmp == ">" then decide (x > v)
  else false

/-- The body of the `for post in publishedPosts` loop of `checkTrigger`
(`metrics/views.py:345-397`): skip the post unless `posted_time` and
`metrics` are set, read both variants' value of the configured metric,
evaluate the comparison for each, and emit an event when either variant
satisfies it.  `now` is the wall clock (`timezone.now()`), in the same unit
as `posted_time`.  The trigger fields are matched here as options; the
queryset filter has already ensured the first three are non-null. -/
def evalPost (now : Nat) (post : Post) : Option TriggerEvent :=
  match post.posted_time, post.metrics with
  | some pt, some m =>
    match post.trigger_condition, post.trigger_value, post.trigger_comparison with
    | some cond, some v, some cmp =>
      let metrics_a := m.get_variant_metrics "A"
      let metrics_b := m.get_variant_metrics "B"
      let metric_value_a := metrics_a.getCond cond
      let metric_value_b := metrics_b.getCond cond
      let is_triggered_a := satisfiesCmp cmp metric_value_a v
      let is_triggered_b := satisfiesCmp cmp metric_value_b v
      if is_triggered_a || is_triggered_b then
        some { post_pk := post.pk
               post_title := post.title
               trigger_condition := cond
               trigger_value := v
               trigger_comparison := cmp
               current_value_a := metric_value_a
               current_value_b := metric_value_b
               triggered_variants :=
                 (if is_triggered_a then ["A"] else []) ++ (if is_triggered_b then ["B"] else [])
               elapsed_time_seconds := (now : Int) - (pt : Int)
               trigger_prompt := post.trigger_prompt }
      else none
    | _, _, _ => none
  | _, _ => none

/-- The queryset filter of `checkTrigger` (`metrics/views.py:330-339`):
`status == "published"` with `trigger_condition`, `trigger_value` and
`trigger_comparison` non-null (`trigger_prompt` is not filtered on), plus
the optional `campaign__campaign_id` filter (`if campaign_id:` treats an
absent or empty query parameter as no filter). -/
def triggerQueryFilter (campaignId : Option String) (p : Post) : Bool :=
  p.status == "published" &&
  p.trigger_condition.isSome && p.trigger_value.isSome && p.trigger_comparison.isSome &&
  (match campaignId with
   | none => true
   | some c => if c == "" then true else p.campaign.campaign_id == c)

/-- Stable insertion used to realise `order_by('created_at')`. -/
def insertByCreated (p : Post) : List Post → List Post
  | [] => [p]
  | q :: r => if q.created_at ≤ p.created_at then q :: insertByCreated p r else p :: q :: r

/-- `order_by('created_at')` (`metrics/views.py:341`). -/
def sortByCreatedAt : List Post → List Post
  | [] => []
  | p :: r => insertByCreated p (sortByCreatedAt r)

/-- The evaluation part of `checkTrigger` (`metrics/views.py:322-397`):
filter, order, and run the evaluation loop.  It performs no ORM write. -/
def checkTriggerEval (campaignId : Option String) (now : Nat) (db : DB) : List TriggerEvent :=
  (sortByCreatedAt (db.posts.filter (triggerQueryFilter campaignId))).filterMap (evalPost now)

/-- The `checkTrigger` endpoint as seen by the store: the evaluation loop
only reads, and the subsequent block (`metrics/views.py:399-417`) merely
starts daemon threads (one regeneration task per fired event) before the
response is returned, so the synchronous endpoint leaves the store
unchanged and returns the fired events. -/
def checkTrigger (campaignId : Option String) (now : Nat) (db : DB) : DB × List TriggerEvent :=
  (db, checkTriggerEval campaignId now db)

/-- Comparison semantics written from the spec's words: "`<` strictly less,
`=` exactly equal, `>` strictly greater — no tolerance/epsilon". -/
def specSatisfies (cmp : String) (x v : Int) : Prop :=
  (cmp = "<" ∧ x < v) ∨ (cmp = "=" ∧ x = v) ∨ (cmp = ">" ∧ v < x)

instance (cmp : String) (x v : Int) : Decidable (specSatisfies cmp x v) := by
  unfold specSatisfies
  infer_instance

/-- The structured output of `content_agent.execute_with_metrics`
(`metrics/views.py:228-234`). -/
structure ContentOutput where
  A : String
  B : String
  A_image_caption : String
  B_image_caption : String
deriving DecidableEq, Repr

/-- The dict returned by `media_agent.create_image`
(`metrics/views.py:253-256`). -/
structure MediaAsset where
  mime_type : String
  data : String
deriving DecidableEq, Repr

/-- Environment of one `regenerate_content_background` run.  The first four
fields are the outcomes of the external LLM / media calls; each `lock*`
field is the number of consecutive `OperationalError("database is locked")`
failures the store reports at that call site before the operation proceeds
(0 = no contention). -/
structure RegenOracle where
  analysis : Except PyErr String
  content : Except PyErr ContentOutput
  mediaA : Except PyErr MediaAsset
  mediaB : Except PyErr MediaAsset
  lockGetPost : Nat
  lockGetPostData : Nat
  lockCreateA : Nat
  lockSaveA : Nat
  lockCreateB : Nat
  lockSaveB : Nat
  lockUpdate : Nat
deriving Repr

/-- Trace labels for the steps a regeneration task attempts, in order. -/
inductive Step where
  | load
  | analyze
  | generateContent
  | persistVariant (variant : String)
  | mediaGenerate (variant : String)
  | finalize
deriving DecidableEq, Repr

/-- A store operation under lock contention: the first `locks` invocations
raise `OperationalError("database is locked")`, after which the operation
itself runs. -/
def withLocks (locks : Nat) (op : Except PyErr α) : Nat → Except PyErr α :=
  fun k => if k < locks then .error (.operational true) else op

/-- `Post.objects.get(pk=...)` (`metrics/views.py:174-175` and `213-215`):
the row, or `Post.DoesNotExist`. -/
def getPostOp (db : DB) (pk : Nat) : Except PyErr Post :=
  match db.posts.find? (fun p => p.pk == pk) with
  | some p => .ok p
  | none => .error .doesNotExist

/-- The row passed to `ContentVariant.objects.create` by the regeneration
task (`metrics/views.py:241-247` and `269-275`): no asset yet, metadata
marked `regenerated`, `created_at` stamped by `auto_now_add`. -/
def regeneratedVariant (pk : Nat) (vid content : String) (createdAt : Nat) : ContentVariant :=
  { post_pk := pk, variant_id := vid, content := content, asset := none,
    regenerated := true, created_at := createdAt }

/-- `ContentVariant.objects.create(post=..., variant_id=..., ...)`
(`metrics/views.py:239-247` and `267-275`).  The table's
`unique_together = [['post', 'variant_id']]` (`agents/models.py:145`) makes
the insert raise `IntegrityError` when a record for the same
(post, variant) already exists; otherwise the row is appended. -/
def contentVariantCreate (db : DB) (pk : Nat) (vid content : String) (createdAt : Nat) :
    Except PyErr (ContentVariant × DB) :=
  if db.variants.any (fun v => v.post_pk == pk && v.variant_id == vid) then
    .error .integrity
  else
    let v : ContentVariant := regeneratedVariant pk vid content createdAt
    .ok (v, { db with variants := db.variants ++ [v] })

/-- `save_variant_a_asset` / `save_variant_b_asset`
(`metrics/views.py:258-259` and `286-287`): the file name embeds
`int(time.time())`, whose evaluation raises `AttributeError` because of the
line-13 shadowing, before the ORM save can run. -/
def saveAssetOp (db : DB) (v : ContentVariant) (label postId ext : String) :
    Except PyErr DB :=
  match timeTime with
  | .error e => .error e
  | .ok t =>
    let fname := "variant_" ++ label ++ "_image_" ++ postId ++ "_" ++ toString t ++ "." ++ ext
    .ok { db with
          variants := db.variants.map (fun w => if w == v then { w with asset := some fname } else w) }

/-- One `try: asset = media_agent.create_image(...); ...; except Exception:`
block (`metrics/views.py:252-264` and `280-292`): a failure of the media
call, or of the retried asset save, is caught and only logged — the task
proceeds with the store unchanged. -/
def mediaAndSave (media : Except PyErr MediaAsset) (lockSave : Nat) (v : ContentVariant)
    (label postId : String) (db : DB) : DB :=
  match media with
  | .error _ => db
  | .ok asset =>
    let ext := (asset.mime_type.splitOn "/").getLastD ""
    match retry_on_db_lock (withLocks lockSave (saveAssetOp db v label postId ext)) 5 100 with
    | .ok db2 => db2
    | .error _ => db

/-- The field updates of `update_post_status` (`metrics/views.py:297-303`):
`status = 'draft'` and all four trigger fields nulled. -/
def clearTrigger (p : Post) : Post :=
  { p with status := "draft", trigger_condition := none, trigger_value := none,
           trigger_comparison := none, trigger_prompt := none }

/-- `update_post_status` (`metrics/views.py:295-305`): refetch the post, set
`status = 'draft'` and null all four trigger fields. -/
def updatePostStatusOp (db : DB) (pk : Nat) : Except PyErr DB :=
  match db.posts.find? (fun p => p.pk == pk) with
  | none => .error .doesNotExist
  | some _ =>
    .ok { db with posts := db.posts.map (fun p => if p.pk == pk then clearTrigger p else p) }

/-- The `try` body of `regenerate_content_background`
(`metrics/views.py:166-309`), returning the steps attempted in order, the
store as left behind, and the exception that escaped the body (if any).
The prompt-building reads (`metrics_data`, `old_content`, `product_info`,
lines 180-192 and 219-225) are pure and absorbed into the oracle's
responses.  New variants are stamped `clock` and `clock + 1` by
`auto_now_add`. -/
def regenerateBody (ev : TriggerEvent) (o : RegenOracle) (clock : Nat) (db : DB) :
    List Step × DB × Option PyErr :=
  match retry_on_db_lock (withLocks o.lockGetPost (getPostOp db ev.post_pk)) 5 100 with
  | .error e => ([.load], db, some e)
  | .ok _post =>
    match o.analysis with
    | .error e => ([.load, .analyze], db, some e)
    | .ok _report =>
      match retry_on_db_lock (withLocks o.lockGetPostData (getPostOp db ev.post_pk)) 5 100 with
      | .error e => ([.load, .analyze], db, some e)
      | .ok post2 =>
        match o.content with
        | .error e => ([.load, .analyze, .generateContent], db, some e)
        | .ok co =>
          match retry_on_db_lock
              (withLocks o.lockCreateA (contentVariantCreate db post2.pk "A" co.A clock)) 5 100 with
          | .error e =>
            ([.load, .analyze, .generateContent, .persistVariant "A"], db, some e)
          | .ok (va, db1) =>
            let db2 := mediaAndSave o.mediaA o.lockSaveA va "a" post2.post_id db1
            match retry_on_db_lock
                (withLocks o.lockCreateB
                  (contentVariantCreate db2 post2.pk "B" co.B (clock + 1))) 5 100 with
            | .error e =>
              ([.load, .analyze, .generateContent, .persistVariant "A", .mediaGenerate "A",
                .persistVariant "B"], db2, some e)
            | .ok (vb, db3) =>
              let db4 := mediaAndSave o.mediaB o.lockSaveB vb "b" post2.post_id db3
              match retry_on_db_lock (withLocks o.lockUpdate (updatePostStatusOp db4 post2.pk)) 5 100 with
              | .error e =>
                ([.load, .analyze, .generateContent, .persistVariant "A", .mediaGenerate "A",
                  .persistVariant "B", .mediaGenerate "B", .finalize], db4, some e)
              | .ok db5 =>
                ([.load, .analyze, .generateContent, .persistVariant "A", .mediaGenerate "A",
                  .persistVariant "B", .mediaGenerate "B", .finalize], db5, none)

/-- `regenerate_content_background` (`metrics/views.py:149-318`): the body
runs under `try ... except Exception ... finally`, so any `PyErr` the body
raises is caught and printed.  The result carries the store as left behind,
the attempted steps, and whether an error was logged.  The function is
typed in `Except` to state that it never propagates an exception. -/
def regenerate_content_background (ev : TriggerEvent) (o : RegenOracle) (clock : Nat) (db : DB) :
    Except PyErr (DB × List Step × Bool) :=
  match regenerateBody ev o clock db with
  | (tr, db2, none) => .ok (db2, tr, false)
  | (tr, db2, some _e) => .ok (db2, tr, true)

/-- The full step trace of a regeneration run that reaches the final
status update. -/
def canonicalTrace : List Step :=
  [.load, .analyze, .generateContent, .persistVariant "A", .mediaGenerate "A",
   .persistVariant "B", .mediaGenerate "B", .finalize]

/-- Written from the claim's ordering words: all media-generation steps
precede all variant-persistence steps, i.e. no persistence step is followed
(anywhere later) by a media step. -/
def mediaAllPrecedePersistence : List Step → Bool
  | [] => true
  | s :: r =>
    match s with
    | .persistVariant _ => r.all (fun t => match t with | .mediaGenerate _ => false | _ => true)
        && mediaAllPrecedePersistence r
    | _ => mediaAllPrecedePersistence r

/-- Concrete content output used by the concrete runs below. -/
def co0 : ContentOutput :=
  { A := "new A", B := "new B", A_image_caption := "capA", B_image_caption := "capB" }

/-- Concrete media asset. -/
def asset0 : MediaAsset := { mime_type := "image/png", data := "imgdata" }

/-- Concrete campaign. -/
def campaign0 : Campaign := { campaign_id := "camp_001", product_info := "product" }

/-- Metric record with per-variant likes 3 (A) and 8 (B). -/
def m1 : PostMetrics :=
  { likes := .obj [("A", 3), ("B", 8)]
    retweets := .obj [("A", 0), ("B", 0)]
    impressions := .obj [("A", 0), ("B", 0)]
    comments := .obj [("A", 0), ("B", 0)]
    commentList := []
    tweet_id := [("A", "101"), ("B", "102")] }

/-- A published post with a full trigger `likes < 5` and metric record `m1`. -/
def post1 : Post :=
  { pk := 1, post_id := "post_001", title := "Launch", description := "d",
    status := "published", posted_time := some 5, metrics := some m1,
    trigger_condition := some "likes", trigger_value := some 5,
    trigger_comparison := some "<", trigger_prompt := some "improve tone",
    campaign := campaign0, created_at := 1 }

/-- Store holding only `post1`. -/
def db9 : DB := { posts := [post1], variants := [] }

/-- A published post whose trigger lacks only the action prompt
(`trigger_prompt` null), with the fresh (all-zero) metric record. -/
def postC3 : Post :=
  { pk := 3, post_id := "post_003", title := "Promptless", description := "d",
    status := "published", posted_time := some 5, metrics := some freshPostMetrics,
    trigger_condition := some "likes", trigger_value := some 5,
    trigger_comparison := some "<", trigger_prompt := none,
    campaign := campaign0, created_at := 3 }

/-- Store holding only `postC3`. -/
def db3 : DB := { posts := [postC3], variants := [] }

/-- The event `checkTrigger` emits for `postC3` at clock 10. -/
def ev3 : TriggerEvent :=
  { post_pk := 3, post_title := "Promptless", trigger_condition := "likes",
    trigger_value := 5, trigger_comparison := "<", current_value_a := 0,
    current_value_b := 0, triggered_variants := ["A", "B"],
    elapsed_time_seconds := 5, trigger_prompt := none }

/-- Pre-existing variant A of post 2 (from the original content generation). -/
def vA0 : ContentVariant :=
  { post_pk := 2, variant_id := "A", content := "old A", asset := none,
    regenerated := false, created_at := 0 }

/-- Pre-existing variant B of post 2. -/
def vB0 : ContentVariant :=
  { post_pk := 2, variant_id := "B", content := "old B", asset := none,
    regenerated := false, created_at := 1 }

/-- A published, triggered post that already owns variants A and B. -/
def post2b : Post :=
  { pk := 2, post_id := "post_002", title := "History", description := "d",
    status := "published", posted_time := some 5, metrics := some m1,
    trigger_condition := some "likes", trigger_value := some 5,
    trigger_comparison := some "<", trigger_prompt := some "improve tone",
    campaign := campaign0, created_at := 2 }

/-- Store where post 2 already has one record per variant slot. -/
def db2bug : DB := { posts := [post2b], variants := [vA0, vB0] }

/-- Fired event for post 2. -/
def ev2 : TriggerEvent :=
  { post_pk := 2, post_title := "History", trigger_condition := "likes",
    trigger_value := 5, trigger_comparison := "<", current_value_a := 3,
    current_value_b := 8, triggered_variants := ["A"],
    elapsed_time_seconds := 5, trigger_prompt := some "improve tone" }

/-- Oracle for a run where every external call succeeds and the store never
reports lock contention. -/
def oHappy : RegenOracle :=
  { analysis := .ok "report", content := .ok co0, mediaA := .ok asset0,
    mediaB := .ok asset0, lockGetPost := 0, lockGetPostData := 0,
    lockCreateA := 0, lockSaveA := 0, lockCreateB := 0, lockSaveB := 0,
    lockUpdate := 0 }

/-- Like `post1` but without any pre-existing variants in the store. -/
def post8 : Post :=
  { pk := 8, post_id := "post_008", title := "Fresh", description := "d",
    status := "published", posted_time := some 5, metrics := some m1,
    trigger_condition := some "likes", trigger_value := some 5,
    trigger_comparison := some "<", trigger_prompt := some "improve tone",
    campaign := campaign0, created_at := 8 }

/-- Store holding only `post8`, with no variants. -/
def db8 : DB := { posts := [post8], variants := [] }

/-- Fired event for post 8. -/
def ev8 : TriggerEvent :=
  { post_pk := 8, post_title := "Fresh", trigger_condition := "likes",
    trigger_value := 5, trigger_comparison := "<", current_value_a := 3,
    current_value_b := 8, triggered_variants := ["A"],
    elapsed_time_seconds := 5, trigger_prompt := some "improve tone" }

/-- An operation that reports "database is locked" on its first two
invocations and succeeds on the third. -/
def lockedTwiceThenOk : Nat → Except PyErr Nat :=
  fun k => if k < 2 then .error (.operational true) else .ok 7

/-- An operation that always reports "database is locked". -/
def alwaysLocked : Nat → Except PyErr Nat :=
  fun _ => .error (.operational true)

/-- An operation that raises a non-lock error. -/
def nonLockErrOp : Nat → Except PyErr Nat :=
  fun _ => .error (.generic "ValueError")

/-- The boolean comparison dispatch agrees with the spec's strict
comparison semantics (both are false for a comparison string other than
`<`, `=`, `>`). -/
theorem satisfiesCmp_iff_spec (cmp : String) (x v : Int) :
    satisfiesCmp cmp x v = true ↔ specSatisfies cmp x v := by
  unfold satisfiesCmp specSatisfies
  by_cases h1 : cmp = "<"
  · subst h1; simp
  · by_cases h2 : cmp = "="
    · subst h2; simp
    · by_cases h3 : cmp = ">"
      · subst h3; simp
      · simp [h1, h2, h3]

/-- A retried operation with no lock contention that succeeds returns its
result from the first invocation. -/
theorem retry_zero_ok (a : α) (d : Nat) :
    retry_on_db_lock (withLocks 0 (Except.ok a)) 5 d = .ok a := rfl

/-- A retried operation whose first invocation reports a lock dies with
`AttributeError`: the retry loop's `time.sleep(delay)` hits the shadowed
`time` name before a second attempt can happen. -/
theorem retry_locked_first (op : Except PyErr α) (n d : Nat) :
    retry_on_db_lock (withLocks (n + 1) op) 5 d = .error .attribute := by
  show (retryAux (withLocks (n + 1) op) 0 d none 0 5).1 = Except.error PyErr.attribute
  simp [retryAux, withLocks, timeSleep]

/-- The media block never changes the store: a failed media call is caught
and logged, and when the call succeeds the asset save itself dies on the
shadowed `time` name (`AttributeError` from `int(time.time())`), which the
same `except` catches.  Under this code no variant ever receives an asset. -/
theorem mediaAndSave_eq (media : Except PyErr MediaAsset) (lockSave : Nat)
    (v : ContentVariant) (label postId : String) (db : DB) :
    mediaAndSave media lockSave v label postId db = db := by
  unfold mediaAndSave
  cases media with
  | error e => rfl
  | ok a =>
    cases lockSave with
    | zero => rfl
    | succ n => simp only [retry_locked_first]

/-- Membership in an insertion step. -/
theorem mem_insertByCreated (x p : Post) (l : List Post) :
    x ∈ insertByCreated p l ↔ x = p ∨ x ∈ l := by
  induction l with
  | nil => simp [insertByCreated]
  | cons q r ih =>
    unfold insertByCreated
    split
    · rw [List.mem_cons, ih, List.mem_cons]; tauto
    · simp only [List.mem_cons]

/-- `order_by('created_at')` only reorders the posts. -/
theorem mem_sortByCreatedAt (x : Post) (l : List Post) :
    x ∈ sortByCreatedAt l ↔ x ∈ l := by
  induction l with
  | nil => simp [sortByCreatedAt]
  | cons q r ih => simp [sortByCreatedAt, mem_insertByCreated, ih]

/-- A post that produces an event has `posted_time` and `metrics` set, and
the event carries its primary key. -/
theorem evalPost_some_conds (now : Nat) (p : Post) (ev : TriggerEvent)
    (h : evalPost now p = some ev) :
    p.posted_time.isSome = true ∧ p.metrics.isSome = true ∧ ev.post_pk = p.pk := by
  unfold evalPost at h
  cases hpt : p.posted_time with
  | none => rw [hpt] at h; exact absurd h (by simp)
  | some pt =>
    cases hm : p.metrics with
    | none => rw [hpt, hm] at h; exact absurd h (by simp)
    | some m =>
      rw [hpt, hm] at h
      cases hc : p.trigger_condition with
      | none => rw [hc] at h; exact absurd h (by simp)
      | some cond =>
        cases hv : p.trigger_value with
        | none => rw [hc, hv] at h; exact absurd h (by simp)
        | some v =>
          cases hcmp : p.trigger_comparison with
          | none => rw [hc, hv, hcmp] at h; exact absurd h (by simp)
          | some cmp =>
            rw [hc, hv, hcmp] at h
            simp only [] at h
            split at h
            · cases h; exact ⟨rfl, rfl, rfl⟩
            · exact absurd h (by simp)

/-- C2 (code_bug evaluation): for a fired post that already owns a variant-A
record, the regeneration run aborts on `IntegrityError` from the
`unique_together [post, variant_id]` constraint at the very first insert:
the store is left exactly as it was (no new variant records, trigger still
set, status still `published`), and the error is only logged.  The claim's
"two new records in addition to every prior variant record" is therefore
unreachable for any post with history, contradicting the code's own intent
comment ("keep old ones for history", `metrics/views.py:238`). -/
theorem regen_prior_variant_integrity_abort :
    regenerate_content_background ev2 oHappy 100 db2bug =
      .ok (db2bug, [.load, .analyze, .generateContent, .persistVariant "A"], true) := rfl

/-- C4 (code_bug evaluation): `retry_on_db_lock` with its defaults
(5 attempts, 0.1s initial delay, here 100ms).  An operation that reports
"database is locked" exactly twice and then succeeds does NOT return the
result after 3 invocations: the first `time.sleep(delay)` raises
`AttributeError` (the module name `time` is shadowed by
`from time import time`, `metrics/views.py:2,13`), so the wrapper dies
after exactly one invocation.  An always-locked operation likewise dies
with `AttributeError` after one invocation instead of re-raising the last
lock failure after 5 attempts.  Only the non-lock-error branch behaves as
claimed: one invocation, immediate re-raise. -/
theorem retry_on_db_lock_shadowed_time_bug :
    retry_on_db_lock_count lockedTwiceThenOk 5 100 = (.error .attribute, 1) ∧
    retry_on_db_lock_count alwaysLocked 5 100 = (.error .attribute, 1) ∧
    retry_on_db_lock_count nonLockErrOp 5 100 = (.error (.generic "ValueError"), 1) :=
  ⟨rfl, rfl, rfl⟩

/-- C3 (counterexample): a published post whose trigger lacks only the
action prompt (`trigger_prompt` null) is NOT excluded: the queryset filter
of `checkTrigger` never checks `trigger_prompt`, so `postC3` is evaluated
and fires, with `trigger_prompt = None` in the emitted event — refuting
"Trigger Configuration fully present (all four fields)" as a necessary
condition for consideration. -/
theorem checkTrigger_includes_promptless_post :
    checkTriggerEval none 10 db3 = [ev3] ∧
    postC3.trigger_prompt = none ∧ ev3.post_pk = postC3.pk := ⟨rfl, rfl, rfl⟩

/-- C7 (counterexample): the Metric Record created alongside a freshly
created Post (`Post.save`, `agents/models.py:109-117`) violates the claimed
key invariant: `likes`, `retweets` and `impressions` are the scalar `0`
(not dicts, so no `"A"`/`"B"` keys), and `comments` and the `tweet_id`
identifier map are empty dicts. -/
theorem fresh_metrics_missing_ab_keys :
    metricsHasABKeys freshPostMetrics = false := rfl

/-- C8 (counterexample): a fully successful regeneration run's step trace
violates "all media generation precedes all variant persistence": the task
persists the new variant-A record before generating any media (and persists
variant B before generating variant B's media). -/
theorem regen_trace_media_after_persist :
    (regenerateBody ev8 oHappy 100 db8).2.2 = none ∧
    mediaAllPrecedePersistence (regenerateBody ev8 oHappy 100 db8).1 = false :=
  ⟨rfl, rfl⟩

/-- C9 (counterexample): the evaluator's output is not a pure function of
the stored Posts, Metric Records and Trigger Configurations: with the store
untouched, two evaluations at wall-clock 10 and 11 differ (the events'
informational `elapsed_time_seconds` field is computed from
`timezone.now()`). -/
theorem checkTrigger_output_clock_dependent :
    checkTriggerEval none 10 db9 ≠ checkTriggerEval none 11 db9 := by decide

/-- C1: for a post the evaluator considers (published queryset member with
`posted_time`, `metrics` and the trigger fields set), the loop body emits an
event iff at least one variant's value of the configured metric satisfies
the configured comparison against the threshold under the spec's strict
numeric semantics, and the event's `triggered_variants` is exactly the set
of labels whose value satisfies the comparison. -/
theorem evalPost_fires_iff_spec (now : Nat) (post : Post) (pt : Nat) (m : PostMetrics)
    (cond : String) (v : Int) (cmp : String)
    (hpt : post.posted_time = some pt) (hm : post.metrics = some m)
    (hc : post.trigger_condition = some cond) (hv : post.trigger_value = some v)
    (hcmp : post.trigger_comparison = some cmp) :
    ((evalPost now post).isSome = true ↔
      (specSatisfies cmp ((m.get_variant_metrics "A").getCond cond) v ∨
       specSatisfies cmp ((m.get_variant_metrics "B").getCond cond) v)) ∧
    (∀ ev, evalPost now post = some ev → ∀ l : String,
      (l ∈ ev.triggered_variants ↔
        ((l = "A" ∧ specSatisfies cmp ((m.get_variant_metrics "A").getCond cond) v) ∨
         (l = "B" ∧ specSatisfies cmp ((m.get_variant_metrics "B").getCond cond) v)))) := by
  unfold evalPost
  simp only [hpt, hm, hc, hv, hcmp]
  cases hta : satisfiesCmp cmp ((m.get_variant_metrics "A").getCond cond) v <;>
    cases htb : satisfiesCmp cmp ((m.get_variant_metrics "B").getCond cond) v <;>
      simp [← satisfiesCmp_iff_spec, hta, htb]

/-- Witness for C1 at the spec's own example: likes A=3, B=8, comparison
`<`, threshold 5: the post fires and only label A satisfies. -/
theorem evalPost_fires_iff_spec_w :
    (((evalPost 10 post1).isSome = true) ↔
      (specSatisfies "<" ((m1.get_variant_metrics "A").getCond "likes") 5 ∨
       specSatisfies "<" ((m1.get_variant_metrics "B").getCond "likes") 5)) ∧
    (∀ ev, evalPost 10 post1 = some ev → ∀ l : String,
      (l ∈ ev.triggered_variants ↔
        ((l = "A" ∧ specSatisfies "<" ((m1.get_variant_metrics "A").getCond "likes") 5) ∨
         (l = "B" ∧ specSatisfies "<" ((m1.get_variant_metrics "B").getCond "likes") 5)))) :=
  evalPost_fires_iff_spec 10 post1 5 m1 "likes" 5 "<" rfl rfl rfl rfl rfl

/-- C3 (amended): every emitted event comes from a stored post that is
published with `trigger_condition`, `trigger_value`, `trigger_comparison`,
`posted_time` and `metrics` all present — the action prompt is NOT required
(see the counterexample); posts missing any of these are excluded, and
evaluation is total (no error path). -/
theorem checkTrigger_candidates_sound (cf : Option String) (now : Nat) (db : DB)
    (ev : TriggerEvent) (h : ev ∈ checkTriggerEval cf now db) :
    ∃ p ∈ db.posts, p.pk = ev.post_pk ∧ p.status = "published" ∧
      p.trigger_condition.isSome = true ∧ p.trigger_value.isSome = true ∧
      p.trigger_comparison.isSome = true ∧ p.posted_time.isSome = true ∧
      p.metrics.isSome = true := by
  unfold checkTriggerEval at h
  rw [List.mem_filterMap] at h
  obtain ⟨p, hp, hev⟩ := h
  rw [mem_sortByCreatedAt, List.mem_filter] at hp
  obtain ⟨hmem, hfilt⟩ := hp
  simp only [triggerQueryFilter, Bool.and_eq_true, beq_iff_eq] at hfilt
  obtain ⟨hpt, hm, hpk⟩ := evalPost_some_conds now p ev hev
  refine ⟨p, hmem, hpk.symm, ?_, ?_, ?_, ?_, hpt, hm⟩ <;> tauto

/-- Witness for C3's amended theorem at the promptless firing post. -/
theorem checkTrigger_candidates_sound_w :
    ∃ p ∈ db3.posts, p.pk = ev3.post_pk ∧ p.status = "published" ∧
      p.trigger_condition.isSome = true ∧ p.trigger_value.isSome = true ∧
      p.trigger_comparison.isSome = true ∧ p.posted_time.isSome = true ∧
      p.metrics.isSome = true :=
  checkTrigger_candidates_sound none 10 db3 ev3 (by decide)

/-- C5: if the LLM analysis call or the content-regeneration call fails,
the regeneration task aborts with the store exactly as it was (status,
trigger fields and variant records untouched — the failure happens before
any write) and the error is only logged. -/
theorem regen_llm_failure_leaves_db_unchanged (ev : TriggerEvent) (o : RegenOracle)
    (clock : Nat) (db : DB)
    (h : (∃ e, o.analysis = Except.error e) ∨ (∃ e, o.content = Except.error e)) :
    ∃ tr, regenerate_content_background ev o clock db = .ok (db, tr, true) := by
  unfold regenerate_content_background regenerateBody
  cases hg : retry_on_db_lock (withLocks o.lockGetPost (getPostOp db ev.post_pk)) 5 100 with
  | error e => exact ⟨_, rfl⟩
  | ok p =>
    cases ha : o.analysis with
    | error e => exact ⟨_, rfl⟩
    | ok rep =>
      cases hgd : retry_on_db_lock (withLocks o.lockGetPostData (getPostOp db ev.post_pk)) 5 100 with
      | error e => exact ⟨_, rfl⟩
      | ok p2 =>
        cases hco : o.content with
        | error e => exact ⟨_, rfl⟩
        | ok co =>
          exfalso
          rcases h with ⟨e, he⟩ | ⟨e, he⟩
          · rw [ha] at he; exact Except.noConfusion he
          · rw [hco] at he; exact Except.noConfusion he

/-- Oracle whose analysis call fails. -/
def oAnalysisFail : RegenOracle :=
  { oHappy with analysis := .error (.generic "LLM analysis failed") }

/-- Witness for C5: with a failing analysis call the task returns the store
unchanged and logs the error. -/
theorem regen_llm_failure_leaves_db_unchanged_w :
    ∃ tr, regenerate_content_background ev8 oAnalysisFail 100 db8 = .ok (db8, tr, true) :=
  regen_llm_failure_leaves_db_unchanged ev8 oAnalysisFail 100 db8
    (Or.inl ⟨.generic "LLM analysis failed", rfl⟩)

/-- C7 (amended): reads of a variant's metric value never raise and treat a
missing key (or a non-dict counter) as 0 — stated for the `likes` counter of
an arbitrary record lacking the key, and for every read of every metric
name on the Metric Record created alongside a fresh Post (whose counters
are the scalar 0 or the empty dict). -/
theorem metrics_reads_default_zero (m : PostMetrics) (v cond : String)
    (hk : m.likes.hasKey v = false) :
    (m.get_variant_metrics v).likes = 0 ∧
    (freshPostMetrics.get_variant_metrics v).getCond cond = 0 := by
  constructor
  · unfold PostMetrics.get_variant_metrics
    cases hl : m.likes with
    | num n => simp [CounterVal.pyGet]
    | obj es =>
      rw [hl] at hk
      simp only [CounterVal.hasKey] at hk
      have hfind : es.find? (fun e => e.1 == v) = none := by
        rw [List.find?_eq_none]
        intro x hx
        simp only [Bool.not_eq_true]
        cases hb : x.1 == v
        · rfl
        · have hany : es.any (fun e => e.1 == v) = true := List.any_eq_true.mpr ⟨x, hx, hb⟩
          rw [hany] at hk
          exact absurd hk (by simp)
      simp [CounterVal.pyGet, hfind]
  · unfold freshPostMetrics PostMetrics.get_variant_metrics VariantMetrics.getCond
    split_ifs <;> simp [CounterVal.pyGet]

/-- Witness for C7's amended theorem on the fresh record and variant A. -/
theorem metrics_reads_default_zero_w :
    (freshPostMetrics.get_variant_metrics "A").likes = 0 ∧
    (freshPostMetrics.get_variant_metrics "A").getCond "likes" = 0 :=
  metrics_reads_default_zero freshPostMetrics "A" "likes" rfl

/-- Store equal to `db9` in its posts but with an extra variant row. -/
def db9v : DB := { posts := [post1], variants := [vA0] }

/-- C9 (amended): the evaluation endpoint leaves the store unchanged, its
output is a function of the posts table (with embedded metric records and
trigger configurations) and the clock only — in particular independent of
the variants table — and re-evaluating the returned store at the same clock
yields the identical event list.  (By the counterexample, evaluations at
different clock readings differ in the informational
`elapsed_time_seconds` field.) -/
theorem checkTrigger_pure_of_posts (cf : Option String) (now : Nat) (db db2 : DB)
    (h : db.posts = db2.posts) :
    (checkTrigger cf now db).1 = db ∧
    checkTriggerEval cf now db = checkTriggerEval cf now db2 ∧
    (checkTrigger cf now ((checkTrigger cf now db).1)).2 = (checkTrigger cf now db).2 := by
  refine ⟨rfl, ?_, rfl⟩
  unfold checkTriggerEval
  rw [h]

/-- Witness for C9's amended theorem: `db9` and `db9v` share their posts. -/
theorem checkTrigger_pure_of_posts_w :
    (checkTrigger none 10 db9).1 = db9 ∧
    checkTriggerEval none 10 db9 = checkTriggerEval none 10 db9v ∧
    (checkTrigger none 10 ((checkTrigger none 10 db9).1)).2 = (checkTrigger none 10 db9).2 :=
  checkTrigger_pure_of_posts none 10 db9 db9v rfl

/-- C10: the background regeneration function never propagates an
exception: for every event, oracle (hence any failure at any step) and
store, the top-level handler catches, the call returns normally, and the
failure is observable exactly as the logged-error flag. -/
theorem regen_background_never_raises (ev : TriggerEvent) (o : RegenOracle)
    (clock : Nat) (db : DB) :
    ∃ out, regenerate_content_background ev o clock db = .ok out ∧
      (out.2.2 = true ↔ (regenerateBody ev o clock db).2.2.isSome = true) := by
  unfold regenerate_content_background
  rcases hb : regenerateBody ev o clock db with ⟨tr, db2, oe⟩
  cases oe with
  | none => exact ⟨(db2, tr, false), by simp [hb]⟩
  | some e => exact ⟨(db2, tr, true), by simp [hb]⟩

/-- C8 (amended): within one regeneration task the steps occur strictly in
the order Load, Analyze, Regenerate content, persist variant A, generate
media for A, persist variant B, generate media for B, Finalize: every run
that reaches the final status update has exactly this trace.  In
particular each variant's media generation follows that variant's
persistence (rather than all media preceding all persistence), and the
persistence of slot A always precedes slot B. -/
theorem regen_success_trace_order (ev : TriggerEvent) (o : RegenOracle) (clock : Nat)
    (db : DB) (h : (regenerateBody ev o clock db).2.2 = none) :
    (regenerateBody ev o clock db).1 = canonicalTrace := by
  unfold regenerateBody at h ⊢
  cases hg : retry_on_db_lock (withLocks o.lockGetPost (getPostOp db ev.post_pk)) 5 100 with
  | error e => simp only [hg] at h; exact absurd h (by simp)
  | ok p =>
    simp only [hg] at h ⊢
    cases ha : o.analysis with
    | error e => simp only [ha] at h; exact absurd h (by simp)
    | ok rep =>
      simp only [ha] at h ⊢
      cases hgd : retry_on_db_lock (withLocks o.lockGetPostData (getPostOp db ev.post_pk)) 5 100 with
      | error e => simp only [hgd] at h; exact absurd h (by simp)
      | ok p2 =>
        simp only [hgd] at h ⊢
        cases hco : o.content with
        | error e => simp only [hco] at h; exact absurd h (by simp)
        | ok co =>
          simp only [hco] at h ⊢
          cases hca : retry_on_db_lock
              (withLocks o.lockCreateA (contentVariantCreate db p2.pk "A" co.A clock)) 5 100 with
          | error e => simp only [hca] at h; exact absurd h (by simp)
          | ok vdb =>
            obtain ⟨va, db1⟩ := vdb
            simp only [hca, mediaAndSave_eq] at h ⊢
            cases hcb : retry_on_db_lock
                (withLocks o.lockCreateB (contentVariantCreate db1 p2.pk "B" co.B (clock + 1))) 5 100 with
            | error e => simp only [hcb] at h; exact absurd h (by simp)
            | ok vdb2 =>
              obtain ⟨vb, db3⟩ := vdb2
              simp only [hcb, mediaAndSave_eq] at h ⊢
              cases hud : retry_on_db_lock (withLocks o.lockUpdate (updatePostStatusOp db3 p2.pk)) 5 100 with
              | error e => simp only [hud] at h; exact absurd h (by simp)
              | ok db5 => simp only [hud]; rfl

/-- Witness for C8's amended theorem: the concrete fully successful run. -/
theorem regen_success_trace_order_w :
    (regenerateBody ev8 oHappy 100 db8).1 = canonicalTrace :=
  regen_success_trace_order ev8 oHappy 100 db8 rfl

/-- C6: if media generation for a new variant fails (here variant A; B's
media outcome is arbitrary), the task logs a warning and continues: both
new text Content Variant records are still persisted, without a media
asset, and the task still finalizes — the post's status becomes `draft` and
all four trigger fields are cleared, with no task-level error logged.
Hypotheses: the post exists, has no pre-existing slot-A/B record (otherwise
the insert itself fails — see C2), the LLM calls succeed and the store
reports no lock contention on the non-media writes. -/
theorem regen_media_failure_nonfatal (ev : TriggerEvent) (o : RegenOracle) (clock : Nat)
    (db : DB) (p : Post) (rep : String) (co : ContentOutput) (em : PyErr)
    (hfind : db.posts.find? (fun q => q.pk == ev.post_pk) = some p)
    (hA : db.variants.any (fun w => w.post_pk == ev.post_pk && w.variant_id == "A") = false)
    (hB : db.variants.any (fun w => w.post_pk == ev.post_pk && w.variant_id == "B") = false)
    (han : o.analysis = .ok rep) (hco : o.content = .ok co) (hma : o.mediaA = .error em)
    (hl1 : o.lockGetPost = 0) (hl2 : o.lockGetPostData = 0) (hl3 : o.lockCreateA = 0)
    (hl5 : o.lockCreateB = 0) (hl7 : o.lockUpdate = 0) :
    regenerate_content_background ev o clock db =
      .ok ({ posts := db.posts.map (fun q => if q.pk == p.pk then clearTrigger q else q),
             variants := db.variants ++ [regeneratedVariant p.pk "A" co.A clock]
               ++ [regeneratedVariant p.pk "B" co.B (clock + 1)] },
           canonicalTrace, false) := by
  have hpk : p.pk = ev.post_pk := by
    simpa using List.find?_some hfind
  have hget : getPostOp db ev.post_pk = .ok p := by
    unfold getPostOp; rw [hfind]
  have hA2 : db.variants.any (fun w => w.post_pk == p.pk && w.variant_id == "A") = false := by
    rw [hpk]; exact hA
  have hB2 : db.variants.any (fun w => w.post_pk == p.pk && w.variant_id == "B") = false := by
    rw [hpk]; exact hB
  have e1 : retry_on_db_lock (withLocks o.lockGetPost (getPostOp db ev.post_pk)) 5 100 = .ok p := by
    rw [hl1, hget]; exact retry_zero_ok p 100
  have e2 : retry_on_db_lock (withLocks o.lockGetPostData (getPostOp db ev.post_pk)) 5 100 = .ok p := by
    rw [hl2, hget]; exact retry_zero_ok p 100
  have e3 : contentVariantCreate db p.pk "A" co.A clock =
      .ok (regeneratedVariant p.pk "A" co.A clock,
           { posts := db.posts,
             variants := db.variants ++ [regeneratedVariant p.pk "A" co.A clock] }) := by
    unfold contentVariantCreate
    rw [hA2]
    rfl
  have e4 : retry_on_db_lock
      (withLocks o.lockCreateA (contentVariantCreate db p.pk "A" co.A clock)) 5 100 =
      .ok (regeneratedVariant p.pk "A" co.A clock,
           { posts := db.posts,
             variants := db.variants ++ [regeneratedVariant p.pk "A" co.A clock] }) := by
    rw [hl3, e3]; exact retry_zero_ok _ 100
  have e5 : (db.variants ++ [regeneratedVariant p.pk "A" co.A clock]).any
      (fun w => w.post_pk == p.pk && w.variant_id == "B") = false := by
    rw [List.any_append, hB2]
    simp [regeneratedVariant]
  have e6 : contentVariantCreate
      { posts := db.posts, variants := db.variants ++ [regeneratedVariant p.pk "A" co.A clock] }
      p.pk "B" co.B (clock + 1) =
      .ok (regeneratedVariant p.pk "B" co.B (clock + 1),
           { posts := db.posts,
             variants := db.variants ++ [regeneratedVariant p.pk "A" co.A clock]
               ++ [regeneratedVariant p.pk "B" co.B (clock + 1)] }) := by
    unfold contentVariantCreate
    simp only [e5]
    rfl
  have e7 : retry_on_db_lock
      (withLocks o.lockCreateB (contentVariantCreate
        { posts := db.posts, variants := db.variants ++ [regeneratedVariant p.pk "A" co.A clock] }
        p.pk "B" co.B (clock + 1))) 5 100 =
      .ok (regeneratedVariant p.pk "B" co.B (clock + 1),
           { posts := db.posts,
             variants := db.variants ++ [regeneratedVariant p.pk "A" co.A clock]
               ++ [regeneratedVariant p.pk "B" co.B (clock + 1)] }) := by
    rw [hl5, e6]; exact retry_zero_ok _ 100
  have hfind2 : db.posts.find? (fun q => q.pk == p.pk) = some p := by
    rw [hpk]; exact hfind
  have e8 : updatePostStatusOp
      { posts := db.posts,
        variants := db.variants ++ [regeneratedVariant p.pk "A" co.A clock]
          ++ [regeneratedVariant p.pk "B" co.B (clock + 1)] } p.pk =
      .ok { posts := db.posts.map (fun q => if q.pk == p.pk then clearTrigger q else q),
            variants := db.variants ++ [regeneratedVariant p.pk "A" co.A clock]
              ++ [regeneratedVariant p.pk "B" co.B (clock + 1)] } := by
    unfold updatePostStatusOp
    simp only [hfind2]
  have e9 : retry_on_db_lock (withLocks o.lockUpdate (updatePostStatusOp
      { posts := db.posts,
        variants := db.variants ++ [regeneratedVariant p.pk "A" co.A clock]
          ++ [regeneratedVariant p.pk "B" co.B (clock + 1)] } p.pk)) 5 100 =
      .ok { posts := db.posts.map (fun q => if q.pk == p.pk then clearTrigger q else q),
            variants := db.variants ++ [regeneratedVariant p.pk "A" co.A clock]
              ++ [regeneratedVariant p.pk "B" co.B (clock + 1)] } := by
    rw [hl7, e8]; exact retry_zero_ok _ 100
  unfold regenerate_content_background regenerateBody
  simp only [e1, han, e2, hco, e4, hma, mediaAndSave_eq, e7, e9]
  rfl

/-- Oracle identical to `oHappy` except that variant A's media call fails. -/
def oMediaFail : RegenOracle :=
  { oHappy with mediaA := .error (.generic "media down") }

/-- Witness for C6 at the concrete store `db8`: with variant A's media call
failing, both text variants are persisted without assets, the post becomes
a draft and the trigger is cleared. -/
theorem regen_media_failure_nonfatal_w :
    regenerate_content_background ev8 oMediaFail 100 db8 =
      .ok ({ posts := db8.posts.map (fun q => if q.pk == post8.pk then clearTrigger q else q),
             variants := db8.variants ++ [regeneratedVariant post8.pk "A" co0.A 100]
               ++ [regeneratedVariant post8.pk "B" co0.B (100 + 1)] },
           canonicalTrace, false) :=
  regen_media_failure_nonfatal ev8 oMediaFail 100 db8 post8 "report" co0
    (.generic "media down") rfl rfl rfl rfl rfl rfl rfl rfl rfl rfl rfl
